import Mathlib

/-!
Verification of the session and conversation state manager of the
Political_chatbot_panel backend (src/backend/app/services/chat_service.py,
src/backend/app/models/chat.py, src/backend/app/api/endpoints.py).

The OpenAI client is an external collaborator: its outcome for each call is
supplied as an oracle value (`GenResult` for chat completions feeding
`_get_ai_response`, `RecoResult` for the recommendation call).  The Python
standard-library helpers `str.strip`, `re.search` + `json.loads` are likewise
external; `str.strip` is modelled structurally by `pyStrip`, and the composite
regex-extraction/JSON-parse step is modelled by the oracle handing over the
parse outcome (`Option Json`).  Everything else is translated directly from
the source.
-/

/-- Supported languages: the `Literal['en', 'de']` type used throughout the
backend (src/backend/app/services/chat_service.py, models/chat.py). -/
inductive Lang
  | en
  | de
deriving DecidableEq, Repr

/-- One history entry: a `{"role": ..., "content": ...}` dict as stored in
`ChatService._sessions` (chat_service.py line 196). -/
structure Message where
  role : String
  content : String
deriving DecidableEq, Repr

/-- Model of Python `str.strip()`: drop whitespace from both ends.
Structural so that the kernel can evaluate it on concrete inputs. -/
def dropWhileWs : List Char → List Char
  | [] => []
  | c :: cs => if c.isWhitespace then dropWhileWs cs else c :: cs

/-- Model of Python `str.strip()` on a whole string. -/
def pyStrip (s : String) : String :=
  ⟨((dropWhileWs s.data).reverse |> dropWhileWs).reverse⟩

/-- Python truthiness test `not message or not message.strip()`
(chat_service.py line 48): holds exactly when the string is empty or
whitespace-only. -/
def isBlank (s : String) : Bool :=
  pyStrip s = ""

/-- The class-level state of `ChatService`: `_sessions` (line 41) and
`_session_languages` (line 42), both keyed by session id. -/
structure ChatState where
  sessions : String → Option (List Message)
  sessionLanguages : String → Option Lang

/-- The process starts with both dictionaries empty. -/
def emptyState : ChatState :=
  { sessions := fun _ => none, sessionLanguages := fun _ => none }

/-- `language.upper()` for the two supported languages. -/
def langUpper : Lang → String
  | .en => "EN"
  | .de => "DE"

/-- Newline plus the 16-space indentation that the triple-quoted Python
source strings carry on continuation lines. -/
def nlIndent : String := "\n                "

/-- The German persona system prompt (chat_service.py lines 156-162). -/
def personaPromptDe : String :=
  "Sie sind Hans-Thomas Tillschneider, ein deutscher Politiker mit starken konservativen und nationalistischen Ansichten." ++ nlIndent ++
  "Sie führen eine hitzige politische Debatte. Seien Sie provokativ, kontrovers und kompromisslos in Ihren Ansichten." ++ nlIndent ++
  "STELLEN Sie sich niemals vor oder erklären Sie, wer Sie sind." ++ nlIndent ++
  "ERWÄHNEN Sie niemals, dass Sie eine KI oder ein Chatbot sind." ++ nlIndent ++
  "Sprechen Sie natürlich, als ob Sie eine echte, leidenschaftliche Debatte führen." ++ nlIndent ++
  "Verwenden Sie eine starke, emotional aufgeladene Sprache, um Reaktionen hervorzurufen." ++ nlIndent ++
  "Konzentrieren Sie sich auf kontroverse Themen wie Einwanderung, nationale Identität, EU-Souveränität, Multikulturalismus oder traditionelle Werte."

/-- The English persona system prompt (chat_service.py lines 164-170). -/
def personaPromptEn : String :=
  "You are Hans-Thomas Tillschneider, a German politician with strong conservative and nationalist views." ++ nlIndent ++
  "You are engaging in a heated political debate. Be provocative, controversial, and uncompromising in your views." ++ nlIndent ++
  "NEVER introduce yourself or explain who you are." ++ nlIndent ++
  "NEVER mention that you\x27re an AI or chatbot." ++ nlIndent ++
  "Speak naturally as if you\x27re having a real, passionate debate." ++ nlIndent ++
  "Use strong, emotionally charged language to provoke responses." ++ nlIndent ++
  "Focus on controversial topics like immigration, national identity, EU sovereignty, multiculturalism, or traditional values."

/-- The per-language persona prompt selected by `_initialize_session`. -/
def personaPrompt : Lang → String
  | .de => personaPromptDe
  | .en => personaPromptEn

/-- Static topic translation table, `get_translated_topic`
(chat_service.py lines 22-38). -/
def getTranslatedTopic (topic : String) (language : Lang) : String :=
  if topic = "Political ideologies and perspectives" then
    match language with
    | .en => "Political ideologies and perspectives"
    | .de => "Politische Ideologien und Perspektiven"
  else if topic = "Current Debate Topic" then
    match language with
    | .en => "Current Debate Topic"
    | .de => "Aktuelles Debatten-Thema"
  else topic

/-- `ChatService._initialize_session` (lines 149-183): store the language and
replace the session history with the single persona system message. -/
def initializeSession (st : ChatState) (sessionId : String) (language : Lang) : ChatState :=
  { sessions := fun id =>
      if id = sessionId then some [⟨"system", personaPrompt language⟩] else st.sessions id
    sessionLanguages := fun id =>
      if id = sessionId then some language else st.sessionLanguages id }

/-- `ChatService._add_to_history` (lines 186-201): create an empty history
when the id is unknown, silently drop blank content, otherwise append the
message. -/
def addToHistory (st : ChatState) (sessionId role content : String) : ChatState :=
  let sessions1 : String → Option (List Message) :=
    match st.sessions sessionId with
    | some _ => st.sessions
    | none => fun id => if id = sessionId then some [] else st.sessions id
  if isBlank content then
    { st with sessions := sessions1 }
  else
    { st with sessions := fun id =>
        if id = sessionId then some ((sessions1 sessionId).getD [] ++ [⟨role, content⟩])
        else sessions1 id }

/-- Outcome of one `client.chat.completions.create` call for text generation
(the external ModelClient): either some raised exception (API error,
connection error, rate limit, timeout, ...) or a reply carrying a list of
choices whose `message.content` may be null (`none`). -/
inductive GenResult
  | genFailure
  | genOk (choices : List (Option String))
deriving Repr

/-- The static per-language apology, `ChatService._get_fallback_response`
(lines 265-271). -/
def getFallbackResponse : Lang → String
  | .de => "Ich entschuldige mich, aber ich habe derzeit technische Schwierigkeiten. Bitte versuchen Sie es später erneut."
  | .en => "I apologize, but I\x27m experiencing technical difficulties. Please try again shortly."

/-- The transient per-turn language instruction built inside
`_get_ai_response` (lines 237-240). -/
def languageInstruction (language : Lang) : Message :=
  ⟨"system", "Respond in " ++ langUpper language ++ " language only. Keep the response natural and in character."⟩

/-- `ChatService._get_ai_response` (lines 225-263).  First component: the
`temp_messages` payload actually sent upstream (`none` when no call is made
because the client is unconfigured or the session is missing).  Second
component: the returned text — the stripped first-choice content on success,
the static fallback on a missing client, missing session, raised exception,
empty choice list, or null content (`.strip()` on `None` raises and is
caught by the blanket handler). -/
def getAiResponse (clientOk : Bool) (st : ChatState) (sessionId : String)
    (language : Lang) (gen : GenResult) : Option (List Message) × String :=
  if clientOk = false then (none, getFallbackResponse language)
  else
    match st.sessions sessionId with
    | none => (none, getFallbackResponse language)
    | some hist =>
      let tempMessages := hist ++ [languageInstruction language]
      (some tempMessages,
        match gen with
        | .genFailure => getFallbackResponse language
        | .genOk [] => getFallbackResponse language
        | .genOk (none :: _) => getFallbackResponse language
        | .genOk (some c :: _) => pyStrip c)

/-- `RecommendedAnswer` (models/chat.py lines 4-6). -/
structure RecommendedAnswer where
  text : String
  id : String
deriving DecidableEq, Repr

/-- JSON values, the possible results of `json.loads` on the recommendation
reply text. -/
inductive Json
  | str (s : String)
  | num (n : Int)
  | bool (b : Bool)
  | null
  | arr (elems : List Json)
  | obj (fields : List (String × Json))

/-- Outcome of one recommendation `client.chat.completions.create` call plus
the standard-library parse step applied to its text: a raised exception, a
reply with no choices, or reply text whose array-extraction
(`re.search` of a bracketed substring) followed by `json.loads` produced the
given JSON value (`none` when nothing parses, which ends in the fallback path
either via `json.JSONDecodeError` or the blanket handler). -/
inductive RecoResult
  | recFailure
  | recNoChoices
  | recContent (parsed : Option Json)

/-- The static per-language fallback question lists inside
`_get_fallback_recommendations` (lines 370-385). -/
def fallbackQuestions : Lang → List String
  | .de =>
    ["Wie positionieren Sie sich zur aktuellen Einwanderungspolitik?",
     "Was bedeutet nationale Identität für Sie?",
     "Wie sollte Deutschland mit der EU zusammenarbeiten?",
     "Welche traditionellen Werte sind heute noch relevant?",
     "Wie bewerten Sie die multikulturelle Gesellschaft?"]
  | .en =>
    ["What is your position on current immigration policies?",
     "What does national identity mean to you?",
     "How should Germany cooperate with the EU?",
     "Which traditional values are still relevant today?",
     "How do you assess multicultural society?"]

/-- `ChatService._get_fallback_recommendations` (lines 366-401): slice the
static list to `min(num_recommendations, len(list))` and tag each entry with
a positional `fallback_` id. -/
def getFallbackRecommendations (language : Lang) (numRecommendations : Nat) : List RecommendedAnswer :=
  let languageFallbacks := fallbackQuestions language
  let recommendations := languageFallbacks.take (min numRecommendations languageFallbacks.length)
  recommendations.enum.map (fun p => ⟨p.2, "fallback_" ++ toString p.1⟩)

/-- The per-language opening prompt template (chat_service.py lines 285-288
and 295-298). -/
def openingPrompt (language : Lang) (numRecommendations : Nat) : String :=
  match language with
  | .de =>
    "Erstellen Sie " ++ toString numRecommendations ++ " prägnante, provokative Fragen für eine politische Debatte mit Hans-Thomas Tillschneider." ++ nlIndent ++
    "Themen: Einwanderung, nationale Identität, EU, traditionelle Werte." ++ nlIndent ++
    "Format: JSON-Array von Strings auf Deutsch." ++ nlIndent ++
    "Beispiel: [\"Frage 1\", \"Frage 2\", \"Frage 3\"]"
  | .en =>
    "Generate " ++ toString numRecommendations ++ " concise, provocative questions for a political debate with Hans-Thomas Tillschneider." ++ nlIndent ++
    "Topics: immigration, national identity, EU, traditional values." ++ nlIndent ++
    "Format: JSON array of strings in English." ++ nlIndent ++
    "Example: [\"Question 1\", \"Question 2\", \"Question 3\"]"

/-- The per-language follow-up prompt template (chat_service.py lines 289-292
and 299-302); the only dynamic data interpolated is `user_input` and
`num_recommendations`. -/
def followupPrompt (userInput : String) (language : Lang) (numRecommendations : Nat) : String :=
  match language with
  | .de =>
    "Basierend auf: \"" ++ userInput ++ "\"" ++ nlIndent ++
    "Erstellen Sie " ++ toString numRecommendations ++ " deutsche Folgefragen für die politische Debatte." ++ nlIndent ++
    "Format: JSON-Array von Strings auf Deutsch." ++ nlIndent ++
    "Beispiel: [\"Frage 1\", \"Frage 2\", \"Frage 3\"]"
  | .en =>
    "Based on: \"" ++ userInput ++ "\"" ++ nlIndent ++
    "Generate " ++ toString numRecommendations ++ " English follow-up questions for the political debate." ++ nlIndent ++
    "Format: JSON array of strings in English." ++ nlIndent ++
    "Example: [\"Question 1\", \"Question 2\", \"Question 3\"]"

/-- The outgoing payload of the recommendation call (chat_service.py lines
306-317).  Like the source method it receives the class state and the
session id, but the payload is built from the template and `user_input`
alone — `cls._sessions` and `session_id` are never consulted. -/
def recoRequestMessages (st : ChatState) (userInput : String) (sessionId : String)
    (language : Lang) (isOpening : Bool) (numRecommendations : Nat) : List Message :=
  let _ := st.sessions sessionId
  let prompt := if isOpening then openingPrompt language numRecommendations
                else followupPrompt userInput language numRecommendations
  [⟨"system", "You generate political debate questions. Respond ONLY with a JSON array of strings in " ++ langUpper language ++ "."⟩,
   ⟨"user", prompt⟩]

/-- The validation filter of `_get_recommended_answers` (lines 347-350): the
first `num_recommendations` parsed entries that are non-blank strings. -/
def jsonValidStrings (recommendations : List Json) (numRecommendations : Nat) : List String :=
  (recommendations.take numRecommendations).filterMap (fun r =>
    match r with
    | .str s => if isBlank s then none else some s
    | _ => none)

/-- Discriminator for the `isinstance(recommendations, list)` check
(line 342). -/
def jsonIsArr : Json → Bool
  | .arr _ => true
  | _ => false

/-- `ChatService._get_recommended_answers` (lines 273-364), with the provider
call and stdlib parse step supplied as the `RecoResult` oracle: any raised
exception, missing client, missing choices, unparseable or non-array or
empty payload, or zero surviving valid entries falls back to
`_get_fallback_recommendations`; surviving entries are the first
`num_recommendations` elements that are non-blank strings, each tagged with
a positional `rec_` id. -/
def getRecommendedAnswers (clientOk : Bool) (st : ChatState) (userInput : String)
    (sessionId : String) (language : Lang) (isOpening : Bool)
    (numRecommendations : Nat) (reco : RecoResult) : List RecommendedAnswer :=
  let _ := recoRequestMessages st userInput sessionId language isOpening numRecommendations
  if clientOk = false then getFallbackRecommendations language numRecommendations
  else
    match reco with
    | .recFailure => getFallbackRecommendations language numRecommendations
    | .recNoChoices => getFallbackRecommendations language numRecommendations
    | .recContent none => getFallbackRecommendations language numRecommendations
    | .recContent (some (.arr [])) => getFallbackRecommendations language numRecommendations
    | .recContent (some (.arr (r0 :: rs))) =>
      let validRecommendations := jsonValidStrings (r0 :: rs) numRecommendations
      if validRecommendations = [] then getFallbackRecommendations language numRecommendations
      else validRecommendations.enum.map (fun p => ⟨p.2, "rec_" ++ toString p.1⟩)
    | .recContent (some _) => getFallbackRecommendations language numRecommendations

/-- Errors raised by the service layer: Python `ValueError` with its
message. -/
inductive PyError
  | valueError (msg : String)
deriving DecidableEq, Repr

/-- The dict returned by `process_message` (lines 75-82), shaped like
`ChatResponse` (models/chat.py). -/
structure ChatResult where
  response : String
  sessionId : String
  messageCount : Nat
  language : Lang
  recommendedAnswers : List RecommendedAnswer
  topic : String
deriving DecidableEq, Repr

/-- The dict returned by `start_conversation` (lines 113-120). -/
structure StartResult where
  openingMessage : String
  sessionId : String
  recommendedAnswers : List RecommendedAnswer
  messageCount : Nat
  topic : String
  language : Lang
deriving DecidableEq, Repr

/-- The dict returned by `reset_conversation` (line 142). -/
structure ResetResult where
  status : String
  sessionId : String
deriving DecidableEq, Repr

/-- The oracles consumed by one `process_message` or `start_conversation`
call: the text-generation call outcome and the recommendation call
outcome. -/
structure ProcessOracle where
  gen : GenResult
  reco : RecoResult

/-- Language resolution in `process_message` (lines 51-55): an explicit
language is persisted into `_session_languages`; omitted language is
inherited from the session with default `en`. -/
def resolveLanguage (st : ChatState) (sessionId : String) (language : Option Lang) :
    Lang × ChatState :=
  match language with
  | none => ((st.sessionLanguages sessionId).getD .en, st)
  | some l =>
    (l, { st with sessionLanguages := fun id =>
            if id = sessionId then some l else st.sessionLanguages id })

/-- The lazy-create step of `process_message` (lines 57-58): initialize a
session only when the id is unknown. -/
def ensureSessionExists (st : ChatState) (sessionId : String) (language : Lang) : ChatState :=
  if (st.sessions sessionId).isSome then st else initializeSession st sessionId language

/-- `ChatService.process_message` (lines 44-89).  Returns the outcome
together with the class state after the call: the class-level dictionaries
are mutated in place, so state changes made before a raise persist (the
error paths return the state reached so far). -/
def processMessage (clientOk : Bool) (st : ChatState) (message sessionId : String)
    (language : Option Lang) (oracle : ProcessOracle) :
    Except PyError ChatResult × ChatState :=
  if isBlank message then (.error (.valueError "Message cannot be empty"), st)
  else
    let ls := resolveLanguage st sessionId language
    let lang := ls.1
    let st2 := ensureSessionExists ls.2 sessionId lang
    let st3 := addToHistory st2 sessionId "user" message
    let response := (getAiResponse clientOk st3 sessionId lang oracle.gen).2
    if response = "" then (.error (.valueError "Failed to generate AI response"), st3)
    else
      let st4 := addToHistory st3 sessionId "assistant" response
      (.ok
        { response := response
          sessionId := sessionId
          messageCount := (((st4.sessions sessionId).getD []).filter (fun m => m.role == "user")).length
          language := lang
          recommendedAnswers := getRecommendedAnswers clientOk st4 message sessionId lang false 3 oracle.reco
          topic := getTranslatedTopic "Current Debate Topic" lang },
        st4)

/-- `ChatService.start_conversation` (lines 91-127).  The language argument
is the enumerated type, so the `language not in ['en', 'de']` validation
(line 95) can never fire; the session is (re)initialized unconditionally. -/
def startConversation (clientOk : Bool) (st : ChatState) (sessionId : String)
    (language : Lang) (oracle : ProcessOracle) :
    Except PyError StartResult × ChatState :=
  let st1 := initializeSession st sessionId language
  let openingMessage := (getAiResponse clientOk st1 sessionId language oracle.gen).2
  if openingMessage = "" then
    (.error (.valueError "Failed to generate opening message"), st1)
  else
    let st2 := addToHistory st1 sessionId "assistant" openingMessage
    (.ok
      { openingMessage := openingMessage
        sessionId := sessionId
        recommendedAnswers := getRecommendedAnswers clientOk st2 "" sessionId language true 3 oracle.reco
        messageCount := 1
        topic := getTranslatedTopic "Political ideologies and perspectives" language
        language := language },
      st2)

/-- `ChatService.reset_conversation` (lines 129-146): delete both entries
for the id (idempotent) and report success. -/
def resetConversation (st : ChatState) (sessionId : String) : ResetResult × ChatState :=
  ({ status := "success", sessionId := sessionId },
   { sessions := fun id => if id = sessionId then none else st.sessions id
     sessionLanguages := fun id => if id = sessionId then none else st.sessionLanguages id })

/-- `ChatService.update_language` (lines 203-223): update
`_session_languages` in place when the id is known, otherwise report
`false`; `_sessions` is never touched. -/
def updateLanguage (st : ChatState) (sessionId : String) (language : Lang) :
    Bool × ChatState :=
  if (st.sessionLanguages sessionId).isSome then
    (true, { st with sessionLanguages := fun id =>
               if id = sessionId then some language else st.sessionLanguages id })
  else (false, st)

/-- `ChatRequest` (models/chat.py lines 8-11) as built by pydantic from a raw
HTTP body: omitted `session_id` defaults to "default" and omitted `language`
defaults to `en` — the parsed model never carries a null language. -/
structure ChatRequest where
  message : String
  sessionId : String
  language : Lang
deriving DecidableEq, Repr

/-- Pydantic construction of `ChatRequest` from the raw request fields, with
the model defaults applied to omitted fields. -/
def mkChatRequest (message : String) (sessionId : Option String) (language : Option Lang) :
    ChatRequest :=
  { message := message
    sessionId := sessionId.getD "default"
    language := language.getD .en }

/-- The `/chat/message` transport handler `send_message` (endpoints.py lines
70-79): it always passes the parsed request fields — in particular a
concrete language value — to `ChatService.process_message`. -/
def sendMessage (clientOk : Bool) (st : ChatState) (req : ChatRequest)
    (oracle : ProcessOracle) : Except PyError ChatResult × ChatState :=
  processMessage clientOk st req.message req.sessionId (some req.language) oracle

/-- Modelled from the spec: the spec's implicit-context seeding for follow-up
recommendations, absent from the source — "the last up-to-6 non-system
history entries (rendered as \"role: content\" lines)". -/
def specImplicitContext (history : List Message) : String :=
  let nonSystem := history.filter (fun m => m.role ≠ "system")
  let lastSix := nonSystem.drop (nonSystem.length - 6)
  String.intercalate "\n" (lastSix.map (fun m => m.role ++ ": " ++ m.content))

/-- Specification predicate: the generation-call outcome whose first choice
carries content that strips to the empty string — the one upstream reply
shape that `process_message` turns into a raised `ValueError` instead of a
fallback. -/
def blankFirstChoice : GenResult → Bool
  | .genOk (some c :: _) => pyStrip c = ""
  | _ => false

/-- Specification predicate: the history starts with one of the two static
persona system prompts. -/
def GoodHead (h : List Message) : Prop :=
  h.head? = some ⟨"system", personaPrompt .en⟩ ∨ h.head? = some ⟨"system", personaPrompt .de⟩

/-- Specification predicate: every stored session has a non-empty history
headed by a persona system prompt. -/
def SessionInvariant (st : ChatState) : Prop :=
  ∀ id h, st.sessions id = some h → h ≠ [] ∧ GoodHead h

/-- Specification predicate: no system-role message occurs after the head of
the history. -/
def noExtraSystem (h : List Message) : Prop :=
  ∀ m ∈ h.tail, m.role ≠ "system"

/-- Test fixture: a state holding one English session that already contains
a user turn. -/
def c2PreState : ChatState :=
  { sessions := fun id =>
      if id = "s" then some [⟨"system", personaPrompt .en⟩, ⟨"user", "Hallo"⟩] else none
    sessionLanguages := fun id => if id = "s" then some Lang.en else none }

/-- Test fixture: the state after one English turn on a fresh store with a
failing provider. -/
def c5Mid : ChatState :=
  (processMessage true emptyState "Hi" "s" (some .en) ⟨.genFailure, .recFailure⟩).2

/-- Test fixture: `c5Mid` after switching the session language to German. -/
def c5Post : ChatState :=
  (updateLanguage c5Mid "s" .de).2

/-- Test fixture: the result record of one turn on a fresh store with a
failing provider. -/
def c8Res : ChatResult :=
  { response := getFallbackResponse .en
    sessionId := "s"
    messageCount := 1
    language := .en
    recommendedAnswers := getFallbackRecommendations .en 3
    topic := "Current Debate Topic" }

/-- Test fixture: a history containing marker strings that occur nowhere in
the recommendation templates. -/
def c9History : List Message :=
  [⟨"system", personaPrompt .en⟩, ⟨"user", "ZEBRA ONE"⟩, ⟨"assistant", "YAK TWO"⟩]

/-- Test fixture: a state holding `c9History` under session id "s". -/
def c9State : ChatState :=
  { sessions := fun id => if id = "s" then some c9History else none
    sessionLanguages := fun id => if id = "s" then some Lang.en else none }

/-!  Helper lemmas about the embedded operations. -/

theorem addToHistory_sessions_self (st : ChatState) (sessionId role content : String) :
    (addToHistory st sessionId role content).sessions sessionId =
      some ((st.sessions sessionId).getD [] ++
        (if isBlank content then [] else [⟨role, content⟩])) := by
  unfold addToHistory
  cases h : st.sessions sessionId <;> by_cases hb : isBlank content <;> simp [h, hb]

theorem addToHistory_sessions_other (st : ChatState) (sessionId role content id : String)
    (h : id ≠ sessionId) :
    (addToHistory st sessionId role content).sessions id = st.sessions id := by
  unfold addToHistory
  cases hs : st.sessions sessionId <;> by_cases hb : isBlank content <;> simp [hs, hb, h]

theorem addToHistory_languages (st : ChatState) (sessionId role content : String) :
    (addToHistory st sessionId role content).sessionLanguages = st.sessionLanguages := by
  unfold addToHistory
  cases hs : st.sessions sessionId <;> by_cases hb : isBlank content <;> simp [hs, hb]

theorem getFallbackResponse_ne_empty (language : Lang) : getFallbackResponse language ≠ "" := by
  cases language <;> decide

set_option maxRecDepth 4000 in
theorem getFallbackResponse_not_blank (language : Lang) :
    isBlank (getFallbackResponse language) = false := by
  cases language <;> decide

theorem resolveLanguage_sessions (st : ChatState) (sessionId : String) (language : Option Lang) :
    (resolveLanguage st sessionId language).2.sessions = st.sessions := by
  cases language <;> rfl

theorem resolveLanguage_some_fst (st : ChatState) (sessionId : String) (l : Lang) :
    (resolveLanguage st sessionId (some l)).1 = l := rfl

theorem resolveLanguage_some_languages (st : ChatState) (sessionId : String) (l : Lang) :
    (resolveLanguage st sessionId (some l)).2.sessionLanguages sessionId = some l := by
  simp [resolveLanguage]

theorem initializeSession_sessions_self (st : ChatState) (sessionId : String) (language : Lang) :
    (initializeSession st sessionId language).sessions sessionId =
      some [⟨"system", personaPrompt language⟩] := by
  simp [initializeSession]

theorem ensureSessionExists_isSome (st : ChatState) (sessionId : String) (language : Lang) :
    ((ensureSessionExists st sessionId language).sessions sessionId).isSome := by
  unfold ensureSessionExists
  by_cases h : (st.sessions sessionId).isSome <;> simp [h, initializeSession]

theorem ensureSessionExists_languages_of (st : ChatState) (sessionId : String) (language : Lang)
    (h : st.sessionLanguages sessionId = some language) :
    (ensureSessionExists st sessionId language).sessionLanguages sessionId = some language := by
  unfold ensureSessionExists
  by_cases hs : (st.sessions sessionId).isSome <;> simp [hs, initializeSession, h]

theorem getAiResponse_fst (st : ChatState) (sessionId : String) (language : Lang)
    (gen : GenResult) (hist : List Message) (h : st.sessions sessionId = some hist) :
    (getAiResponse true st sessionId language gen).1 =
      some (hist ++ [languageInstruction language]) := by
  simp [getAiResponse, h]

theorem getAiResponse_snd_fallback (st : ChatState) (sessionId : String) (language : Lang)
    (gen : GenResult) (hist : List Message) (h : st.sessions sessionId = some hist)
    (hgen : gen = .genFailure ∨ gen = .genOk []) :
    (getAiResponse true st sessionId language gen).2 = getFallbackResponse language := by
  rcases hgen with h1 | h1 <;> subst h1 <;> simp [getAiResponse, h]

theorem getAiResponse_snd_empty_iff (clientOk : Bool) (st : ChatState) (sessionId : String)
    (language : Lang) (gen : GenResult) (hist : List Message)
    (h : st.sessions sessionId = some hist) :
    ((getAiResponse clientOk st sessionId language gen).2 = "") ↔
      (clientOk = true ∧ blankFirstChoice gen = true) := by
  cases clientOk
  · simp [getAiResponse, getFallbackResponse_ne_empty]
  · match gen with
    | .genFailure => simp [getAiResponse, h, blankFirstChoice, getFallbackResponse_ne_empty]
    | .genOk [] => simp [getAiResponse, h, blankFirstChoice, getFallbackResponse_ne_empty]
    | .genOk (none :: rest) =>
      simp [getAiResponse, h, blankFirstChoice, getFallbackResponse_ne_empty]
    | .genOk (some c :: rest) => simp [getAiResponse, h, blankFirstChoice]

theorem getAiResponse_snd_cases (clientOk : Bool) (st : ChatState) (sessionId : String)
    (language : Lang) (gen : GenResult) :
    (getAiResponse clientOk st sessionId language gen).2 = getFallbackResponse language ∨
      ∃ c, (getAiResponse clientOk st sessionId language gen).2 = pyStrip c := by
  unfold getAiResponse
  cases clientOk
  · simp
  · cases hs : st.sessions sessionId
    · simp
    · match gen with
      | .genFailure => simp
      | .genOk [] => simp
      | .genOk (none :: rest) => simp
      | .genOk (some c :: rest) => exact Or.inr ⟨c, rfl⟩

theorem dropWhileWs_head_not_ws {l : List Char} {c : Char} {cs : List Char}
    (h : dropWhileWs l = c :: cs) : c.isWhitespace = false := by
  induction l with
  | nil => simp [dropWhileWs] at h
  | cons a as ih =>
    by_cases ha : a.isWhitespace
    · exact ih (by simpa [dropWhileWs, ha] using h)
    · rw [dropWhileWs, if_neg ha] at h
      cases h
      simpa using ha

theorem dropWhileWs_suffix (l : List Char) : ∃ t, l = t ++ dropWhileWs l := by
  induction l with
  | nil => exact ⟨[], rfl⟩
  | cons a as ih =>
    by_cases ha : a.isWhitespace
    · obtain ⟨t, ht⟩ := ih
      refine ⟨a :: t, ?_⟩
      rw [dropWhileWs, if_pos ha, List.cons_append]
      exact congrArg (a :: ·) ht
    · refine ⟨[], ?_⟩
      rw [dropWhileWs, if_neg ha, List.nil_append]

theorem dropWhileWs_cons_self {c : Char} (cs : List Char) (h : c.isWhitespace = false) :
    dropWhileWs (c :: cs) = c :: cs := by
  rw [dropWhileWs, if_neg (by simp [h])]

theorem pyStrip_data (s : String) :
    (pyStrip s).data = (dropWhileWs ((dropWhileWs s.data).reverse)).reverse := rfl

theorem pyStrip_idem (s : String) : pyStrip (pyStrip s) = pyStrip s := by
  have key : ∀ d : List Char,
      (dropWhileWs ((dropWhileWs
          ((dropWhileWs ((dropWhileWs d).reverse)).reverse)).reverse)).reverse
        = (dropWhileWs ((dropWhileWs d).reverse)).reverse := by
    intro d
    set a := dropWhileWs d with ha
    set b := dropWhileWs a.reverse with hb
    have h2 : dropWhileWs b = b := by
      cases hbc : b with
      | nil => rfl
      | cons c cs =>
        exact dropWhileWs_cons_self cs (dropWhileWs_head_not_ws (hb.symm.trans hbc))
    have h1 : dropWhileWs b.reverse = b.reverse := by
      cases hbc : b.reverse with
      | nil => rfl
      | cons c cs =>
        have hbne : b ≠ [] := by
          intro hnil
          rw [hnil, List.reverse_nil] at hbc
          cases hbc
        have hane : a ≠ [] := by
          intro hnil
          apply hbne
          rw [hb, hnil, List.reverse_nil]
          rfl
        obtain ⟨t, ht⟩ := dropWhileWs_suffix a.reverse
        rw [← hb] at ht
        have hchain : b.reverse.head? = a.head? := by
          rw [List.head?_reverse, ← List.getLast?_append_of_ne_nil t hbne, ← ht,
            List.getLast?_reverse]
        rw [hbc] at hchain
        cases hac : a with
        | nil => exact absurd hac hane
        | cons x xs =>
          rw [hac, List.head?_cons, List.head?_cons] at hchain
          have hcx : c = x := Option.some.inj hchain
          have hx : x.isWhitespace = false :=
            dropWhileWs_head_not_ws (ha.symm.trans hac)
          exact dropWhileWs_cons_self cs (hcx ▸ hx)
    rw [h1, List.reverse_reverse, h2]
  exact congrArg String.mk (key s.data)

theorem isBlank_of_ne_empty {clientOk : Bool} {st : ChatState} {sessionId : String}
    {language : Lang} {gen : GenResult}
    (h : (getAiResponse clientOk st sessionId language gen).2 ≠ "") :
    isBlank ((getAiResponse clientOk st sessionId language gen).2) = false := by
  rcases getAiResponse_snd_cases clientOk st sessionId language gen with hf | ⟨c, hc⟩
  · rw [hf]
    exact getFallbackResponse_not_blank language
  · rw [hc] at h ⊢
    unfold isBlank
    rw [pyStrip_idem]
    simpa using h

theorem head?_append_ne_nil {α : Type} (l l' : List α) (h : l ≠ []) :
    (l ++ l').head? = l.head? := by
  cases l with
  | nil => exact absurd rfl h
  | cons a as => rfl

theorem getFallbackRecommendations_length (language : Lang) (count : Nat) :
    (getFallbackRecommendations language count).length = min count 5 := by
  cases language <;> simp [getFallbackRecommendations, fallbackQuestions]

theorem getFallbackRecommendations_get_id (language : Lang) (count i : Nat)
    (hi : i < (getFallbackRecommendations language count).length) :
    ((getFallbackRecommendations language count).get ⟨i, hi⟩).id =
      "fallback_" ++ toString i := by
  unfold getFallbackRecommendations
  simp only [List.get_eq_getElem, List.getElem_map, List.getElem_enum]

theorem getRecommendedAnswers_cases (clientOk : Bool) (st : ChatState)
    (userInput sessionId : String) (language : Lang) (isOpening : Bool)
    (count : Nat) (reco : RecoResult) :
    getRecommendedAnswers clientOk st userInput sessionId language isOpening count reco =
        getFallbackRecommendations language count ∨
      ∃ valid : List String, valid ≠ [] ∧
        getRecommendedAnswers clientOk st userInput sessionId language isOpening count reco =
          valid.enum.map (fun p => (⟨p.2, "rec_" ++ toString p.1⟩ : RecommendedAnswer)) := by
  unfold getRecommendedAnswers
  cases clientOk
  · simp
  · match reco with
    | .recFailure => simp
    | .recNoChoices => simp
    | .recContent none => simp
    | .recContent (some (.str s)) => simp
    | .recContent (some (.num n)) => simp
    | .recContent (some (.bool b)) => simp
    | .recContent (some .null) => simp
    | .recContent (some (.obj fs)) => simp
    | .recContent (some (.arr [])) => simp
    | .recContent (some (.arr (r0 :: rs))) =>
      by_cases hv : jsonValidStrings (r0 :: rs) count = []
      · left
        simp [hv]
      · right
        exact ⟨jsonValidStrings (r0 :: rs) count, hv, by simp [hv]⟩

/-!  Claim theorems. -/

/-- C4 counterexample: with `count = 6` the degraded result has only 5
entries (the static table is never padded), not "exactly count entries" as
the claim states. -/
theorem C4_counterexample :
    (getRecommendedAnswers true emptyState "x" "s" .en false 6 .recFailure).length = 5 ∧
      (5 : Nat) ≠ 6 :=
  ⟨by rfl, by decide⟩

/-- C4 (amended): for every `count ≥ 1` the recommendation generator always
returns at least one entry and never raises; on any internal failure
(missing client, provider error, missing choices, unparseable, non-array or
empty payload, zero valid entries) it returns the static language-specific
fallback list truncated to `min count 5` entries — never padded — each with
a positional `fallback_` id, while provider-sourced entries get positional
`rec_0, rec_1, ...` ids. -/
theorem C4_amended (clientOk : Bool) (st : ChatState) (userInput sessionId : String)
    (language : Lang) (isOpening : Bool) (count : Nat) (reco : RecoResult)
    (hc : 1 ≤ count) :
    1 ≤ (getRecommendedAnswers clientOk st userInput sessionId language isOpening count reco).length ∧
    (getFallbackRecommendations language count).length = min count 5 ∧
    (∀ i (hi : i < (getFallbackRecommendations language count).length),
        ((getFallbackRecommendations language count).get ⟨i, hi⟩).id =
          "fallback_" ++ toString i) ∧
    ((clientOk = false ∨ reco = .recFailure ∨ reco = .recNoChoices ∨ reco = .recContent none) →
      getRecommendedAnswers clientOk st userInput sessionId language isOpening count reco =
        getFallbackRecommendations language count) ∧
    (∀ j, reco = .recContent (some j) → jsonIsArr j = false →
      getRecommendedAnswers clientOk st userInput sessionId language isOpening count reco =
        getFallbackRecommendations language count) ∧
    (getRecommendedAnswers clientOk st userInput sessionId language isOpening count reco =
        getFallbackRecommendations language count ∨
      ∃ valid : List String, valid ≠ [] ∧
        getRecommendedAnswers clientOk st userInput sessionId language isOpening count reco =
          valid.enum.map (fun p => (⟨p.2, "rec_" ++ toString p.1⟩ : RecommendedAnswer))) := by
  refine ⟨?_, getFallbackRecommendations_length language count,
    getFallbackRecommendations_get_id language count, ?_, ?_,
    getRecommendedAnswers_cases clientOk st userInput sessionId language isOpening count reco⟩
  · rcases getRecommendedAnswers_cases clientOk st userInput sessionId language isOpening
      count reco with h | ⟨valid, hne, h⟩
    · rw [h, getFallbackRecommendations_length]
      omega
    · rw [h, List.length_map, List.enum_length]
      exact List.length_pos.mpr hne
  · rintro (h | h | h | h)
    · subst h
      simp [getRecommendedAnswers]
    · subst h
      cases clientOk <;> simp [getRecommendedAnswers]
    · subst h
      cases clientOk <;> simp [getRecommendedAnswers]
    · subst h
      cases clientOk <;> simp [getRecommendedAnswers]
  · intro j hj hja
    subst hj
    cases clientOk
    · simp [getRecommendedAnswers]
    · cases j with
      | str s => simp [getRecommendedAnswers]
      | num n => simp [getRecommendedAnswers]
      | bool b => simp [getRecommendedAnswers]
      | null => simp [getRecommendedAnswers]
      | obj fs => simp [getRecommendedAnswers]
      | arr elems => simp [jsonIsArr] at hja

/-- C4 witness: the theorem applied to a concrete failing call with
`count = 6`. -/
theorem C4_amended_witness :
    (1 : Nat) ≤ 6 ∧
      1 ≤ (getRecommendedAnswers true emptyState "x" "s" .en false 6 .recFailure).length :=
  ⟨by decide, (C4_amended true emptyState "x" "s" .en false 6 .recFailure (by decide)).1⟩

/-- C6 counterexample: on a store with no session "s", the history-append
operation does not fail with NotFound — it silently creates the session and
appends the entry. -/
theorem C6_counterexample :
    emptyState.sessions "s" = none ∧
      (addToHistory emptyState "s" "user" "hi").sessions "s" = some [⟨"user", "hi"⟩] :=
  ⟨rfl, by rfl⟩

/-- C6 (amended): the history-append operation never fails: on a missing
session it creates an empty history entry for the id and (for non-blank
content) appends to it; blank content is a silent no-op that leaves any
existing history unchanged. -/
theorem C6_amended (st : ChatState) (sessionId role content : String) :
    (addToHistory st sessionId role content).sessions sessionId =
      some ((st.sessions sessionId).getD [] ++
        (if isBlank content then [] else [⟨role, content⟩])) :=
  addToHistory_sessions_self st sessionId role content

/-- C9 counterexample: a history whose spec-rendered implicit context is the
non-empty string of its non-system entries produces exactly the same
outgoing recommendation payload as an empty store — the context is not
included in the request. -/
theorem C9_counterexample :
    specImplicitContext c9History = "user: ZEBRA ONE\nassistant: YAK TWO" ∧
    specImplicitContext c9History ≠ "" ∧
    recoRequestMessages c9State "Hi" "s" .en false 3 =
      recoRequestMessages emptyState "Hi" "s" .en false 3 :=
  ⟨by rfl, by decide, rfl⟩

/-- C9 (amended): the follow-up recommendation request is seeded with the
user message only: the payload is independent of the class state and the
session id, and consists of the fixed system instruction plus the follow-up
template interpolating only the user input and the count. -/
theorem C9_amended (st1 st2 : ChatState) (userInput sessionId1 sessionId2 : String)
    (language : Lang) (count : Nat) :
    recoRequestMessages st1 userInput sessionId1 language false count =
      recoRequestMessages st2 userInput sessionId2 language false count ∧
    recoRequestMessages st1 userInput sessionId1 language false count =
      [⟨"system", "You generate political debate questions. Respond ONLY with a JSON array of strings in " ++ langUpper language ++ "."⟩,
       ⟨"user", followupPrompt userInput language count⟩] :=
  ⟨rfl, rfl⟩

/-- C2 counterexample: starting a conversation on a session id that already
exists does not leave its history unchanged — the initializer runs
unconditionally and replaces the stored history (here the prior user turn
disappears and an assistant opening takes its place). -/
theorem C2_counterexample :
    (c2PreState.sessions "s").isSome = true ∧
      ((startConversation true c2PreState "s" .en ⟨.genFailure, .recFailure⟩).2.sessions "s").map
          (fun h => h.map Message.role) ≠
        (c2PreState.sessions "s").map (fun h => h.map Message.role) :=
  ⟨by rfl, by decide⟩

/-- C2 (amended): `start_conversation` always (re)initializes the session:
whatever state the store was in, after a successful call the history for the
id is exactly the fresh persona system prompt followed by the assistant
opening; the create-only-when-missing behavior belongs to `process_message`
(its lazy initialization), not to `start_conversation`. -/
theorem C2_amended (clientOk : Bool) (st : ChatState) (sessionId : String) (language : Lang)
    (oracle : ProcessOracle) (r : StartResult)
    (h : (startConversation clientOk st sessionId language oracle).1 = .ok r) :
    (startConversation clientOk st sessionId language oracle).2.sessions sessionId =
      some [⟨"system", personaPrompt language⟩, ⟨"assistant", r.openingMessage⟩] := by
  simp only [startConversation] at h ⊢
  by_cases he : (getAiResponse clientOk (initializeSession st sessionId language) sessionId
      language oracle.gen).2 = ""
  · simp [he] at h
  · have hnb : isBlank ((getAiResponse clientOk (initializeSession st sessionId language)
        sessionId language oracle.gen).2) = false := isBlank_of_ne_empty he
    simp only [if_neg he] at h ⊢
    rw [Except.ok.injEq] at h
    subst h
    rw [addToHistory_sessions_self, initializeSession_sessions_self]
    simp [hnb]

/-- C2 witness: the theorem applied to the concrete pre-populated store. -/
theorem C2_amended_witness :
    (startConversation true c2PreState "s" .en ⟨.genFailure, .recFailure⟩).1 =
        .ok { openingMessage := getFallbackResponse .en
              sessionId := "s"
              recommendedAnswers := getFallbackRecommendations .en 3
              messageCount := 1
              topic := "Political ideologies and perspectives"
              language := .en } ∧
      (startConversation true c2PreState "s" .en ⟨.genFailure, .recFailure⟩).2.sessions "s" =
        some [⟨"system", personaPrompt .en⟩, ⟨"assistant", getFallbackResponse .en⟩] :=
  ⟨by rfl, C2_amended true c2PreState "s" .en ⟨.genFailure, .recFailure⟩ _ (by rfl)⟩

/-- C3: when the text-generation call fails outright or returns zero
choices, `process_message` on a non-blank message still returns a
success-shaped result whose response is the static per-language apology for
the effective language, and an assistant entry carrying that apology is
still appended to the stored history. -/
theorem C3_theorem (st : ChatState) (message sessionId : String) (language : Option Lang)
    (oracle : ProcessOracle)
    (hmsg : isBlank message = false)
    (hgen : oracle.gen = .genFailure ∨ oracle.gen = .genOk []) :
    ∃ res hist,
      (processMessage true st message sessionId language oracle).1 = .ok res ∧
      res.response = getFallbackResponse (resolveLanguage st sessionId language).1 ∧
      (processMessage true st message sessionId language oracle).2.sessions sessionId =
        some (hist ++
          [⟨"assistant", getFallbackResponse (resolveLanguage st sessionId language).1⟩]) := by
  simp only [processMessage, hmsg, Bool.false_eq_true, if_false]
  set lang := (resolveLanguage st sessionId language).1 with hlang
  set st2 := ensureSessionExists (resolveLanguage st sessionId language).2 sessionId lang
    with hst2
  set st3 := addToHistory st2 sessionId "user" message with hst3
  have h3 : st3.sessions sessionId =
      some ((st2.sessions sessionId).getD [] ++ [⟨"user", message⟩]) := by
    rw [hst3, addToHistory_sessions_self]
    simp [hmsg]
  have hresp : (getAiResponse true st3 sessionId lang oracle.gen).2 =
      getFallbackResponse lang :=
    getAiResponse_snd_fallback st3 sessionId lang oracle.gen _ h3 hgen
  rw [hresp, if_neg (getFallbackResponse_ne_empty lang)]
  refine ⟨_, (st3.sessions sessionId).getD [], rfl, rfl, ?_⟩
  rw [addToHistory_sessions_self]
  simp [getFallbackResponse_not_blank lang]

/-- C3 witness: the theorem applied to a failing generation call on a fresh
store. -/
theorem C3_witness :
    isBlank "Hi" = false ∧
      ∃ res hist,
        (processMessage true emptyState "Hi" "s" (some .de) ⟨.genFailure, .recFailure⟩).1 =
          .ok res ∧
        res.response = getFallbackResponse (resolveLanguage emptyState "s" (some .de)).1 ∧
        (processMessage true emptyState "Hi" "s" (some .de)
            ⟨.genFailure, .recFailure⟩).2.sessions "s" =
          some (hist ++
            [⟨"assistant", getFallbackResponse (resolveLanguage emptyState "s" (some .de)).1⟩]) :=
  ⟨by decide,
    C3_theorem emptyState "Hi" "s" (some .de) ⟨.genFailure, .recFailure⟩ (by decide)
      (Or.inl rfl)⟩

/-- C1 counterexample: a provider reply whose single choice carries content
that strips to the empty string makes `process_message` raise
`ValueError("Failed to generate AI response")` on a non-blank message — a
failure other than the empty-message `InvalidArgument` propagates to the
caller. -/
theorem C1_counterexample :
    isBlank "Hello" = false ∧
      (processMessage true emptyState "Hello" "s" (some .en)
          ⟨.genOk [some ""], .recFailure⟩).1 =
        .error (.valueError "Failed to generate AI response") :=
  ⟨by decide, by rfl⟩

/-- C1 (amended): `process_message` raises a `ValueError` exactly when the
message is blank (the `InvalidArgument` case) or when the client is
configured and the provider reply's first choice strips to the empty string
(raised as "Failed to generate AI response"); every other failure — missing
client, raised provider exception, zero choices, null content — degrades to
a valid response instead of propagating. -/
theorem C1_amended (clientOk : Bool) (st : ChatState) (message sessionId : String)
    (language : Option Lang) (oracle : ProcessOracle) :
    (∃ e, (processMessage clientOk st message sessionId language oracle).1 = .error e) ↔
      (isBlank message = true ∨ (clientOk = true ∧ blankFirstChoice oracle.gen = true)) := by
  by_cases hb : isBlank message = true
  · simp [processMessage, hb]
  · have hb' : isBlank message = false := by simpa using hb
    simp only [processMessage, hb', Bool.false_eq_true, if_false]
    set lang := (resolveLanguage st sessionId language).1 with hlang
    set st3 := addToHistory (ensureSessionExists (resolveLanguage st sessionId language).2
      sessionId lang) sessionId "user" message with hst3
    have h3 : ∃ hist, st3.sessions sessionId = some hist :=
      ⟨_, addToHistory_sessions_self _ _ _ _⟩
    obtain ⟨hist3, h3⟩ := h3
    have hiff := getAiResponse_snd_empty_iff clientOk st3 sessionId lang oracle.gen hist3 h3
    by_cases hresp : (getAiResponse clientOk st3 sessionId lang oracle.gen).2 = ""
    · simp [hresp, hb']
      exact hiff.mp hresp
    · simp [hresp, hb']
      intro hck
      by_contra hbf'
      exact hresp (hiff.mpr ⟨hck, by simpa using hbf'⟩)

/-- C1 witness: the equivalence applied to a call with a blank-content
choice. -/
theorem C1_amended_witness :
    (∃ e, (processMessage true emptyState "Hello" "s" (some .en)
        ⟨.genOk [some ""], .recFailure⟩).1 = .error e) ↔
      (isBlank "Hello" = true ∨
        (true = true ∧
          blankFirstChoice (⟨.genOk [some ""], .recFailure⟩ : ProcessOracle).gen = true)) :=
  C1_amended true emptyState "Hello" "s" (some .en) ⟨.genOk [some ""], .recFailure⟩

theorem processMessage_languages_some (clientOk : Bool) (st : ChatState)
    (message sessionId : String) (l : Lang) (oracle : ProcessOracle)
    (hb : isBlank message = false) :
    ((processMessage clientOk st message sessionId (some l) oracle).2).sessionLanguages
      sessionId = some l := by
  simp only [processMessage, hb, Bool.false_eq_true, if_false]
  set st1 := (resolveLanguage st sessionId (some l)).2 with hst1
  set lang := (resolveLanguage st sessionId (some l)).1 with hlang
  set st2 := ensureSessionExists st1 sessionId lang with hst2
  set st3 := addToHistory st2 sessionId "user" message with hst3
  have h1 : st1.sessionLanguages sessionId = some l :=
    resolveLanguage_some_languages st sessionId l
  have h2 : st2.sessionLanguages sessionId = some l :=
    ensureSessionExists_languages_of st1 sessionId l h1
  have h3 : st3.sessionLanguages sessionId = some l := by
    rw [hst3, addToHistory_languages]
    exact h2
  by_cases hresp : (getAiResponse clientOk st3 sessionId lang oracle.gen).2 = ""
  · simpa [hresp] using h3
  · simp only [if_neg hresp]
    show (addToHistory st3 sessionId "assistant" _).sessionLanguages sessionId = some l
    rw [addToHistory_languages]
    exact h3

/-- C8: the `message_count` returned by a successful `process_message` call
equals the number of user-role entries stored in that session's history
after the call. -/
theorem C8_theorem (clientOk : Bool) (st : ChatState) (message sessionId : String)
    (language : Option Lang) (oracle : ProcessOracle) (res : ChatResult)
    (h : (processMessage clientOk st message sessionId language oracle).1 = .ok res) :
    res.messageCount =
      (((((processMessage clientOk st message sessionId language oracle).2).sessions
        sessionId).getD []).filter (fun m => m.role == "user")).length := by
  by_cases hb : isBlank message = true
  · simp [processMessage, hb] at h
  · have hb' : isBlank message = false := by simpa using hb
    simp only [processMessage, hb', Bool.false_eq_true, if_false] at h ⊢
    by_cases hresp : (getAiResponse clientOk
        (addToHistory (ensureSessionExists (resolveLanguage st sessionId language).2 sessionId
          (resolveLanguage st sessionId language).1) sessionId "user" message)
        sessionId (resolveLanguage st sessionId language).1 oracle.gen).2 = ""
    · simp [hresp] at h
    · simp only [if_neg hresp] at h ⊢
      rw [Except.ok.injEq] at h
      subst h
      rfl

/-- C8 witness: one concrete successful turn, where the count is 1 and the
stored history holds exactly one user entry. -/
theorem C8_witness :
    (processMessage true emptyState "Hi" "s" (some .en) ⟨.genFailure, .recFailure⟩).1 =
        .ok c8Res ∧
      c8Res.messageCount =
        (((((processMessage true emptyState "Hi" "s" (some .en)
          ⟨.genFailure, .recFailure⟩).2).sessions "s").getD []).filter
            (fun m => m.role == "user")).length :=
  ⟨by rfl,
    C8_theorem true emptyState "Hi" "s" (some .en) ⟨.genFailure, .recFailure⟩ c8Res (by rfl)⟩

/-- C10: the HTTP transport substitutes the pydantic default `en` for an
omitted language field, so the core always receives a concrete language from
HTTP and persists it — overriding any previously stored session language —
while the inherit-from-session branch runs only when the core is called
directly with no language. -/
theorem C10_theorem :
    (∀ clientOk st message sessionId oracle,
        sendMessage clientOk st (mkChatRequest message (some sessionId) none) oracle =
          processMessage clientOk st message sessionId (some .en) oracle) ∧
    (∀ clientOk st message sessionId oracle, isBlank message = false →
        ((processMessage clientOk st message sessionId (some Lang.en) oracle).2).sessionLanguages
          sessionId = some .en) ∧
    (∀ clientOk st message sessionId oracle res,
        st.sessionLanguages sessionId = some Lang.de →
        (processMessage clientOk st message sessionId none oracle).1 = .ok res →
        res.language = .de) := by
  refine ⟨fun _ _ _ _ _ => rfl, ?_, ?_⟩
  · intro clientOk st message sessionId oracle hb
    exact processMessage_languages_some clientOk st message sessionId .en oracle hb
  · intro clientOk st message sessionId oracle res hde h
    by_cases hb : isBlank message = true
    · simp [processMessage, hb] at h
    · have hb' : isBlank message = false := by simpa using hb
      simp only [processMessage, hb', Bool.false_eq_true, if_false] at h
      simp only [resolveLanguage, hde, Option.getD_some] at h
      by_cases hresp : (getAiResponse clientOk
          (addToHistory (ensureSessionExists st sessionId Lang.de) sessionId
            "user" message) sessionId Lang.de oracle.gen).2 = ""
      · rw [if_pos hresp] at h
        simp at h
      · rw [if_neg hresp] at h
        rw [Except.ok.injEq] at h
        subst h
        rfl

/-- C10 witness: a concrete turn arriving with the default language on a
fresh store persists `en` for the session. -/
theorem C10_witness :
    isBlank "Hi" = false ∧
      ((processMessage true emptyState "Hi" "s" (some Lang.en)
          ⟨.genFailure, .recFailure⟩).2).sessionLanguages "s" = some .en :=
  ⟨by decide,
    C10_theorem.2.1 true emptyState "Hi" "s" ⟨.genFailure, .recFailure⟩ (by decide)⟩

theorem noExtraSystem_append {h : List Message} {m : Message} (hm : m.role ≠ "system")
    (hh : noExtraSystem h) : noExtraSystem (h ++ [m]) := by
  intro x hx
  cases h with
  | nil => simp at hx
  | cons a as =>
    rw [List.cons_append, List.tail_cons] at hx
    rcases List.mem_append.mp hx with h1 | h1
    · exact hh x h1
    · rw [List.mem_singleton] at h1
      subst h1
      exact hm

theorem noExtraSystem_nil : noExtraSystem [] := by
  intro m hm
  simp at hm

theorem noExtraSystem_singleton (m : Message) : noExtraSystem [m] := by
  intro x hx
  simp at hx

/-- C7: the per-turn language instruction is appended only to the outgoing
request payload of the generation call (`temp_messages = history +
[instruction]`) and is never persisted: whenever the session history had no
system entry past its head before the call, the history after the call still
has none — `process_message` appends only user- and assistant-role
entries. -/
theorem C7_theorem (clientOk : Bool) (st : ChatState) (message sessionId : String)
    (language : Option Lang) (oracle : ProcessOracle)
    (hpre : ∀ h, st.sessions sessionId = some h → noExtraSystem h) :
    (∀ h, (processMessage clientOk st message sessionId language oracle).2.sessions sessionId =
        some h → noExtraSystem h) ∧
    (∀ (stc : ChatState) (hist : List Message) (l : Lang) (gen : GenResult),
        stc.sessions sessionId = some hist →
        (getAiResponse true stc sessionId l gen).1 =
          some (hist ++ [languageInstruction l])) := by
  constructor
  · by_cases hb : isBlank message = true
    · intro h hh
      simp only [processMessage, hb, if_true] at hh
      exact hpre h hh
    · have hb' : isBlank message = false := by simpa using hb
      simp only [processMessage, hb', Bool.false_eq_true, if_false]
      set st1 := (resolveLanguage st sessionId language).2 with hst1
      set lang := (resolveLanguage st sessionId language).1 with hlang
      set st2 := ensureSessionExists st1 sessionId lang with hst2
      set st3 := addToHistory st2 sessionId "user" message with hst3
      have h2 : ∀ h, st2.sessions sessionId = some h → noExtraSystem h := by
        intro h hh
        rw [hst2] at hh
        unfold ensureSessionExists at hh
        by_cases hs : (st1.sessions sessionId).isSome
        · rw [if_pos hs] at hh
          rw [hst1, resolveLanguage_sessions] at hh
          exact hpre h hh
        · rw [if_neg hs, initializeSession_sessions_self] at hh
          cases Option.some.inj hh
          exact noExtraSystem_singleton _
      have h3 : ∀ h, st3.sessions sessionId = some h → noExtraSystem h := by
        intro h hh
        rw [hst3, addToHistory_sessions_self, hb'] at hh
        simp only [Bool.false_eq_true, if_false] at hh
        cases Option.some.inj hh
        cases hc : st2.sessions sessionId with
        | none => simpa [hc] using noExtraSystem_singleton (⟨"user", message⟩ : Message)
        | some h0 =>
          simp only [hc, Option.getD_some]
          exact noExtraSystem_append (by simp) (h2 h0 hc)
      intro h hh
      by_cases hresp : (getAiResponse clientOk st3 sessionId lang oracle.gen).2 = ""
      · rw [if_pos hresp] at hh
        exact h3 h hh
      · rw [if_neg hresp] at hh
        have hh' : (addToHistory st3 sessionId "assistant"
            ((getAiResponse clientOk st3 sessionId lang oracle.gen).2)).sessions sessionId =
              some h := hh
        rw [addToHistory_sessions_self] at hh'
        cases Option.some.inj hh'
        by_cases hba : isBlank ((getAiResponse clientOk st3 sessionId lang oracle.gen).2) = true
        · simp only [hba, if_true, List.append_nil]
          intro x hx
          cases hc : st3.sessions sessionId with
          | none => simp [hc] at hx
          | some h0 => exact h3 h0 hc x (by simpa [hc] using hx)
        · have hba' : isBlank ((getAiResponse clientOk st3 sessionId lang oracle.gen).2) =
              false := by simpa using hba
          simp only [hba', Bool.false_eq_true, if_false]
          cases hc : st3.sessions sessionId with
          | none =>
            have hsing := noExtraSystem_singleton
              (⟨"assistant", (getAiResponse clientOk st3 sessionId lang oracle.gen).2⟩ : Message)
            simpa [hc] using hsing
          | some h0 =>
            simp only [hc, Option.getD_some]
            exact noExtraSystem_append (by simp) (h3 h0 hc)
  · intro stc hist l gen hsc
    exact getAiResponse_fst stc sessionId l gen hist hsc

/-- C7 witness: the concrete post-turn history of a fresh session contains
no system entry beyond its head. -/
theorem C7_witness :
    noExtraSystem [⟨"system", personaPrompt .en⟩, ⟨"user", "Hi"⟩,
      ⟨"assistant", getFallbackResponse .en⟩] :=
  (C7_theorem true emptyState "Hi" "s" (some .en) ⟨.genFailure, .recFailure⟩
      (fun _ hh => nomatch hh)).1 _ (by rfl)

theorem goodHead_append {h : List Message} (m : Message) (hne : h ≠ []) (hg : GoodHead h) :
    GoodHead (h ++ [m]) := by
  unfold GoodHead at hg ⊢
  rw [head?_append_ne_nil _ _ hne]
  exact hg

theorem sessionInvariant_initializeSession (st : ChatState) (sessionId : String)
    (language : Lang) (hInv : SessionInvariant st) :
    SessionInvariant (initializeSession st sessionId language) := by
  intro id h hid
  by_cases he : id = sessionId
  · subst he
    rw [initializeSession_sessions_self] at hid
    cases Option.some.inj hid
    refine ⟨by simp, ?_⟩
    cases language
    · exact Or.inl rfl
    · exact Or.inr rfl
  · have hother : (initializeSession st sessionId language).sessions id = st.sessions id := by
      simp [initializeSession, he]
    rw [hother] at hid
    exact hInv id h hid

theorem sessionInvariant_addToHistory (st : ChatState) (sessionId role content : String)
    (hInv : SessionInvariant st) (hs : (st.sessions sessionId).isSome) :
    SessionInvariant (addToHistory st sessionId role content) := by
  intro id h hid
  by_cases he : id = sessionId
  · subst he
    rw [addToHistory_sessions_self] at hid
    obtain ⟨h0, hh0⟩ := Option.isSome_iff_exists.mp hs
    rw [hh0, Option.getD_some] at hid
    cases Option.some.inj hid
    obtain ⟨hne, hg⟩ := hInv _ h0 hh0
    constructor
    · simp [hne]
    · by_cases hbc : isBlank content = true
      · simpa [hbc] using hg
      · have hbc' : isBlank content = false := by simpa using hbc
        simp only [hbc', Bool.false_eq_true, if_false]
        exact goodHead_append _ hne hg
  · rw [addToHistory_sessions_other st sessionId role content id he] at hid
    exact hInv id h hid

theorem sessionInvariant_resolveLanguage (st : ChatState) (sessionId : String)
    (language : Option Lang) (hInv : SessionInvariant st) :
    SessionInvariant (resolveLanguage st sessionId language).2 := by
  intro id h hid
  rw [resolveLanguage_sessions] at hid
  exact hInv id h hid

theorem sessionInvariant_ensureSessionExists (st : ChatState) (sessionId : String)
    (language : Lang) (hInv : SessionInvariant st) :
    SessionInvariant (ensureSessionExists st sessionId language) := by
  unfold ensureSessionExists
  split
  · exact hInv
  · exact sessionInvariant_initializeSession st sessionId language hInv

theorem sessionInvariant_processMessage (clientOk : Bool) (st : ChatState)
    (message sessionId : String) (language : Option Lang) (oracle : ProcessOracle)
    (hInv : SessionInvariant st) :
    SessionInvariant (processMessage clientOk st message sessionId language oracle).2 := by
  by_cases hb : isBlank message = true
  · simpa [processMessage, hb] using hInv
  · have hb' : isBlank message = false := by simpa using hb
    simp only [processMessage, hb', Bool.false_eq_true, if_false]
    set st1 := (resolveLanguage st sessionId language).2 with hst1
    set lang := (resolveLanguage st sessionId language).1 with hlang
    set st2 := ensureSessionExists st1 sessionId lang with hst2
    set st3 := addToHistory st2 sessionId "user" message with hst3
    have hInv2 : SessionInvariant st2 :=
      sessionInvariant_ensureSessionExists st1 sessionId lang
        (sessionInvariant_resolveLanguage st sessionId language hInv)
    have hs2 : (st2.sessions sessionId).isSome := ensureSessionExists_isSome st1 sessionId lang
    have hInv3 : SessionInvariant st3 :=
      sessionInvariant_addToHistory st2 sessionId "user" message hInv2 hs2
    have hs3 : (st3.sessions sessionId).isSome := by
      rw [hst3, addToHistory_sessions_self]
      rfl
    by_cases hresp : (getAiResponse clientOk st3 sessionId lang oracle.gen).2 = ""
    · simpa [hresp] using hInv3
    · simp only [if_neg hresp]
      show SessionInvariant (addToHistory st3 sessionId "assistant"
        ((getAiResponse clientOk st3 sessionId lang oracle.gen).2))
      exact sessionInvariant_addToHistory st3 sessionId "assistant" _ hInv3 hs3

theorem sessionInvariant_startConversation (clientOk : Bool) (st : ChatState)
    (sessionId : String) (language : Lang) (oracle : ProcessOracle)
    (hInv : SessionInvariant st) :
    SessionInvariant (startConversation clientOk st sessionId language oracle).2 := by
  simp only [startConversation]
  set st1 := initializeSession st sessionId language with hst1
  have hInv1 : SessionInvariant st1 :=
    sessionInvariant_initializeSession st sessionId language hInv
  have hs1 : (st1.sessions sessionId).isSome := by
    rw [hst1, initializeSession_sessions_self]
    rfl
  by_cases he : (getAiResponse clientOk st1 sessionId language oracle.gen).2 = ""
  · simpa [he] using hInv1
  · simp only [if_neg he]
    show SessionInvariant (addToHistory st1 sessionId "assistant"
      ((getAiResponse clientOk st1 sessionId language oracle.gen).2))
    exact sessionInvariant_addToHistory st1 sessionId "assistant" _ hInv1 hs1

theorem sessionInvariant_resetConversation (st : ChatState) (sessionId : String)
    (hInv : SessionInvariant st) :
    SessionInvariant (resetConversation st sessionId).2 := by
  intro id h hid
  simp only [resetConversation] at hid
  by_cases he : id = sessionId
  · simp [he] at hid
  · simp only [if_neg he] at hid
    exact hInv id h hid

theorem sessionInvariant_updateLanguage (st : ChatState) (sessionId : String)
    (language : Lang) (hInv : SessionInvariant st) :
    SessionInvariant (updateLanguage st sessionId language).2 := by
  intro id h hid
  unfold updateLanguage at hid
  by_cases hs : (st.sessionLanguages sessionId).isSome
  · rw [if_pos hs] at hid
    exact hInv id h hid
  · rw [if_neg hs] at hid
    exact hInv id h hid

set_option maxRecDepth 8000 in
/-- C5 counterexample: one English turn followed by `update_language` to
German leaves the session's language at `de` while `history[0]` still holds
the English persona prompt — the stated invariant ties `history[0]` to the
session's current language and is not preserved by `update_language`. -/
theorem C5_counterexample :
    c5Post.sessionLanguages "s" = some .de ∧
      ((c5Post.sessions "s").getD []).head? = some ⟨"system", personaPrompt .en⟩ ∧
      personaPrompt .en ≠ personaPrompt .de :=
  ⟨by rfl, by rfl, by decide⟩

/-- C5 (amended): every public operation — `start_conversation`,
`process_message`, `reset_conversation`, `update_language` — preserves the
invariant that every stored session has a non-empty history whose head is a
persona system prompt (the prompt of the language the session was last
initialized with, which `update_language` and per-turn language overrides do
not rewrite); a session with empty history is never created by these
operations. -/
theorem C5_amended (st : ChatState) (hInv : SessionInvariant st) :
    (∀ clientOk sessionId language oracle,
        SessionInvariant (startConversation clientOk st sessionId language oracle).2) ∧
    (∀ clientOk message sessionId language oracle,
        SessionInvariant (processMessage clientOk st message sessionId language oracle).2) ∧
    (∀ sessionId, SessionInvariant (resetConversation st sessionId).2) ∧
    (∀ sessionId language, SessionInvariant (updateLanguage st sessionId language).2) :=
  ⟨(fun clientOk sessionId language oracle =>
      sessionInvariant_startConversation clientOk st sessionId language oracle hInv),
   (fun clientOk message sessionId language oracle =>
      sessionInvariant_processMessage clientOk st message sessionId language oracle hInv),
   (fun sessionId => sessionInvariant_resetConversation st sessionId hInv),
   (fun sessionId language => sessionInvariant_updateLanguage st sessionId language hInv)⟩

/-- C5 witness: the invariant holds for the empty store and is preserved by
a concrete turn on it. -/
theorem C5_amended_witness :
    SessionInvariant emptyState ∧
      SessionInvariant (processMessage true emptyState "Hi" "s" (some .en)
        ⟨.genFailure, .recFailure⟩).2 :=
  ⟨(fun _ _ hid => nomatch hid),
    ((C5_amended emptyState (fun _ _ hid => nomatch hid)).2.1 true "Hi" "s" (some .en)
      ⟨.genFailure, .recFailure⟩)⟩
